import Mathlib

set_option maxHeartbeats 1000000

/-!
Verification development for the FirstLight alert pipeline.

Shallow embedding of the core modules:
* `src/firstlight/pipeline/normalize.py` (normalizer),
* `src/firstlight/niches/n1_hostless_fast.py` (N1 filter engine),
* `src/firstlight/storage/db.py` (audit store read query),
* `src/firstlight/pipeline/runner.py` (orchestrator, registry-action appends),
* `src/firstlight/tns/client.py` (registry client probing and submission),
* `src/firstlight/utils/fits_min.py` (stamp metrics error behaviour).

Python floats are modelled as `ℚ` (all comparisons in the code are exact
order comparisons on finite values); optional values are `Option`;
raised exceptions are `Except`.
-/

namespace FirstLight

/-! ## Data model (normalize.py)

A `prv_candidates` entry is a dict; the code reads only `candid`, `jd`
and `diffmaglim` from it, each possibly absent or null (`p.get(k) is None`),
so the embedding keeps exactly those three optional fields. -/

structure RawPrv where
  candid : Option Int
  jd : Option ℚ
  diffmaglim : Option ℚ
deriving DecidableEq

/-- The nested `candidate` record of a raw alert.  `jd`, `ra`, `dec` are
required by `normalize` (a missing one raises `MalformedAlert`, a case no
claim touches), the rest are optional (`c.get(k)`). -/
structure RawCandidate where
  candid : Option Int
  jd : ℚ
  ra : ℚ
  dec : ℚ
  fid : Option Int
  magpsf : Option ℚ
  sigmapsf : Option ℚ
  diffmaglim : Option ℚ
  drb : Option ℚ
  rb : Option ℚ
  isdiffpos : Option String
  ssdistnr : Option ℚ
  distpsnr1 : Option ℚ
  sgscore1 : Option ℚ
  srmag1 : Option ℚ
  nmtchps : Option Int
  ndethist : Option Int
deriving DecidableEq

structure RawAlert where
  objectId : String
  candidate : RawCandidate
  prv_candidates : List RawPrv
deriving DecidableEq

/-- `NormalizedAlert` dataclass.  The Python fields `mag`, `magerr`,
`limmag` are `float(c.get(k, float("nan")))`: the NaN placeholder used
when the source field is missing is modelled as `none` (NaN is never
compared anywhere in the code; it only marks absence). -/
structure NormalizedAlert where
  object_id : String
  candid : String
  topic : String
  ra : ℚ
  dec : ℚ
  jd : ℚ
  fid : Int
  mag : Option ℚ
  magerr : Option ℚ
  limmag : Option ℚ
  drb : Option ℚ
  rb : Option ℚ
  isdiffpos : Option String
  ssdistnr : Option ℚ
  distpsnr1 : Option ℚ
  sgscore1 : Option ℚ
  srmag1 : Option ℚ
  nmtchps : Option Int
  ndethist : Option Int
  last_nondet_jd : Option ℚ
  last_nondet_lim : Option ℚ
  delta_mag_from_nondet : Option ℚ
  raw : RawAlert
deriving DecidableEq

/-! ## Normalizer (`_last_nondet` and `normalize`) -/

/-- Filter condition of `_last_nondet`:
`p.get("candid") is None and p.get("jd") is not None and float(p["jd"]) < float(current_jd)`. -/
def nondet_qualifies (current_jd : ℚ) (p : RawPrv) : Bool :=
  p.candid.isNone && p.jd.isSome && decide (p.jd.getD 0 < current_jd)

/-- Python `max(nondets, key=lambda p: float(p["jd"]))`: scans left to
right, replacing the current best only on a strictly larger key (so the
first maximal element is kept, as in CPython). Every element reaching
this function has `jd.isSome`, so `getD 0` reads the actual value. -/
def max_by_jd (h : RawPrv) (t : List RawPrv) : RawPrv :=
  t.foldl (fun best p => if best.jd.getD 0 < p.jd.getD 0 then p else best) h

/-- `_last_nondet(prv_candidates, current_jd)` from normalize.py. -/
def last_nondet (prv_candidates : List RawPrv) (current_jd : ℚ) : Option RawPrv :=
  match prv_candidates.filter (nondet_qualifies current_jd) with
  | [] => none
  | h :: t => some (max_by_jd h t)

/-- `normalize(alert, topic)` from normalize.py (pure, no I/O). -/
def normalize (alert : RawAlert) (topic : String) : NormalizedAlert :=
  let c := alert.candidate
  let nd := last_nondet alert.prv_candidates c.jd
  let lastNdJd := nd.bind (fun r => r.jd)
  let lastNdLim := nd.bind (fun r => r.diffmaglim)
  let delta : Option ℚ :=
    match lastNdLim, c.magpsf with
    | some l, some m => some (l - m)
    | _, _ => none
  { object_id := alert.objectId
    candid := match c.candid with | some i => toString i | none => ""
    topic := topic
    ra := c.ra
    dec := c.dec
    jd := c.jd
    fid := c.fid.getD 0
    mag := c.magpsf
    magerr := c.sigmapsf
    limmag := c.diffmaglim
    drb := c.drb
    rb := c.rb
    isdiffpos := c.isdiffpos
    ssdistnr := c.ssdistnr
    distpsnr1 := c.distpsnr1
    sgscore1 := c.sgscore1
    srmag1 := c.srmag1
    nmtchps := c.nmtchps
    ndethist := c.ndethist
    last_nondet_jd := lastNdJd
    last_nondet_lim := lastNdLim
    delta_mag_from_nondet := delta
    raw := alert }

/-! ## Filter engine (n1_hostless_fast.py)

`cfg["n1"]` holds the thresholds; each is read through `float(...)`,
`int(...)` or `.get("require_positive_diff", True)`. -/

structure N1Config where
  drb_min : ℚ
  rb_fallback_min : ℚ
  require_positive_diff : Bool
  min_ssdistnr_arcsec : ℚ
  min_distpsnr1_arcsec : ℚ
  min_ps1_mag : ℚ
  max_nmtchps : Int
  max_ndethist : Int
  max_days_since_nondet : ℚ
  min_delta_mag_from_nondet : ℚ
deriving DecidableEq

/-- `drb_ok = (a.drb is not None and a.drb >= float(c["drb_min"]))`. -/
def drb_ok (a : NormalizedAlert) (c : N1Config) : Bool :=
  match a.drb with
  | some v => decide (c.drb_min ≤ v)
  | none => false

/-- `rb_ok = (a.drb is None and a.rb is not None and a.rb >= float(c["rb_fallback_min"]))`. -/
def rb_ok (a : NormalizedAlert) (c : N1Config) : Bool :=
  match a.drb, a.rb with
  | none, some v => decide (c.rb_fallback_min ≤ v)
  | _, _ => false

/-- Gate 1 failure: `not (drb_ok or rb_ok)`. -/
def rb_gate_fail (a : NormalizedAlert) (c : N1Config) : Bool :=
  !(drb_ok a c || rb_ok a c)

/-- Gate 2 failure: `c.get("require_positive_diff", True) and a.isdiffpos not in ("t", "1", True)`.
`a.isdiffpos` is an `Optional[str]`, so the `True` member of the tuple never matches. -/
def isdiffpos_fail (a : NormalizedAlert) (c : N1Config) : Bool :=
  c.require_positive_diff && !(a.isdiffpos == some "t" || a.isdiffpos == some "1")

/-- Gate 3 failure: `a.ssdistnr is not None and a.ssdistnr != -999 and a.ssdistnr < min_ssdistnr_arcsec`
(the source writes the last conjunct as a nested `if`). -/
def sso_fail (a : NormalizedAlert) (c : N1Config) : Bool :=
  match a.ssdistnr with
  | some v => decide (v ≠ -999 ∧ v < c.min_ssdistnr_arcsec)
  | none => false

/-- Gate 4 failure, same shape on `distpsnr1` against `min_distpsnr1_arcsec`. -/
def ps1_close_fail (a : NormalizedAlert) (c : N1Config) : Bool :=
  match a.distpsnr1 with
  | some v => decide (v ≠ -999 ∧ v < c.min_distpsnr1_arcsec)
  | none => false

/-- Gate 5 failure, same shape on `srmag1` against `min_ps1_mag`. -/
def ps1_bright_fail (a : NormalizedAlert) (c : N1Config) : Bool :=
  match a.srmag1 with
  | some v => decide (v ≠ -999 ∧ v < c.min_ps1_mag)
  | none => false

/-- Gate 6 failure: `a.nmtchps is not None and a.nmtchps > int(c["max_nmtchps"])`. -/
def crowded_fail (a : NormalizedAlert) (c : N1Config) : Bool :=
  match a.nmtchps with
  | some n => decide (c.max_nmtchps < n)
  | none => false

/-- Gate 7 failure: `a.ndethist is not None and a.ndethist > int(c["max_ndethist"])`. -/
def ndethist_fail (a : NormalizedAlert) (c : N1Config) : Bool :=
  match a.ndethist with
  | some n => decide (c.max_ndethist < n)
  | none => false

/-- Gate 8 failure: `a.last_nondet_jd is None or a.last_nondet_lim is None or a.delta_mag_from_nondet is None`. -/
def no_nondet_fail (a : NormalizedAlert) : Bool :=
  !(a.last_nondet_jd.isSome && a.last_nondet_lim.isSome && a.delta_mag_from_nondet.isSome)

/-- Gate 9 failure: `days = a.jd - a.last_nondet_jd; days < 0`.  The
source computes `days` after gate 8 has guaranteed `last_nondet_jd`
present; the `none` branch here is therefore never reached by `passes_n1`. -/
def nondet_future_fail (a : NormalizedAlert) : Bool :=
  match a.last_nondet_jd with
  | some nd => decide (a.jd - nd < 0)
  | none => false

/-- Gate 10 failure: `days > float(c["max_days_since_nondet"])`. -/
def nondet_old_fail (a : NormalizedAlert) (c : N1Config) : Bool :=
  match a.last_nondet_jd with
  | some nd => decide (c.max_days_since_nondet < a.jd - nd)
  | none => false

/-- Gate 11 failure: `a.delta_mag_from_nondet < float(c["min_delta_mag_from_nondet"])`. -/
def delta_mag_fail (a : NormalizedAlert) (c : N1Config) : Bool :=
  match a.delta_mag_from_nondet with
  | some d => decide (d < c.min_delta_mag_from_nondet)
  | none => false

/-- `passes_n1(a, cfg)` from n1_hostless_fast.py: the chain of early
returns, in source order.  The third component of the Python result (the
metrics dict, a heterogeneous debug mapping echoing raw field values) is
not modelled: no claim mentions it. -/
def passes_n1 (a : NormalizedAlert) (c : N1Config) : Bool × String :=
  if rb_gate_fail a c then (false, "rb_fail")
  else if isdiffpos_fail a c then (false, "isdiffpos_fail")
  else if sso_fail a c then (false, "sso_match")
  else if ps1_close_fail a c then (false, "ps1_too_close")
  else if ps1_bright_fail a c then (false, "ps1_too_bright")
  else if crowded_fail a c then (false, "crowded_field")
  else if ndethist_fail a c then (false, "too_many_detections")
  else if no_nondet_fail a then (false, "no_recent_nondet")
  else if nondet_future_fail a then (false, "nondet_in_future")
  else if nondet_old_fail a c then (false, "nondet_too_old")
  else if delta_mag_fail a c then (false, "delta_mag_small")
  else (true, "pass")

/-- The eleven gate-failure tests of §4.2, indexed in the listed order. -/
def n1_gate_fail (a : NormalizedAlert) (c : N1Config) : Nat → Bool
  | 0 => rb_gate_fail a c
  | 1 => isdiffpos_fail a c
  | 2 => sso_fail a c
  | 3 => ps1_close_fail a c
  | 4 => ps1_bright_fail a c
  | 5 => crowded_fail a c
  | 6 => ndethist_fail a c
  | 7 => no_nondet_fail a
  | 8 => nondet_future_fail a
  | 9 => nondet_old_fail a c
  | 10 => delta_mag_fail a c
  | _ => false

/-- Reason codes of the eleven gates, in the listed order. -/
def n1_reasons : List String :=
  ["rb_fail", "isdiffpos_fail", "sso_match", "ps1_too_close", "ps1_too_bright",
   "crowded_field", "too_many_detections", "no_recent_nondet", "nondet_in_future",
   "nondet_too_old", "delta_mag_small"]

/-! ## Audit store (db.py) and orchestrator registry steps (runner.py)

Only the `tns_actions` table matters for the claims: the `alerts` and
`decisions` inserts go to other tables never read back by the pipeline.
A row is one `RegistryAction`. -/

structure TnsAction where
  object_id : String
  candid : String
  action : String
  outcome : String
  detail : String
deriving DecidableEq

/-- `DB.was_submitted_or_skipped(object_id)`:
`SELECT 1 FROM tns_actions WHERE object_id=? AND action='submit' LIMIT 1`
is non-empty — note: no condition on `outcome`. -/
def was_submitted_or_skipped (db : List TnsAction) (object_id : String) : Bool :=
  db.any (fun r => decide (r.object_id = object_id ∧ r.action = "submit"))

/-- The registry-action block of `run_daemon` (runner.py lines 120-176)
taken in isolation, for a hypothetical alert that had passed
normalization: the sequence of `tns_actions` rows the block's own text
would append, in order.  In the shipped snapshot this block is
unreachable — every alert is skipped at line 79 and lines 88-118 raise
uncaught before any `tns_log` (see `run_daemon_loop_body` below, the
faithful whole-iteration model).  External effects are passed in as
values: `resolver` is the `ztf_to_tns(object_id)` result (`ztf_to_tns`
returns `None` on empty response or any error, else the response
payload), `submit_result` is the `(ok, detail)` pair returned by
`tns.submit_at_report` (the dict detail rendered as a string). -/
def run_daemon_step (db : List TnsAction) (na : NormalizedAlert) (c : N1Config)
    (resolver : Option String) (dry_run : Bool) (submit_url : Option String)
    (submit_result : Bool × String) : List TnsAction :=
  if !(passes_n1 na c).1 then []
  else if was_submitted_or_skipped db na.object_id then
    [⟨na.object_id, na.candid, "check", "skip", "already_submitted_or_checked_in_db"⟩]
  else
    match resolver with
    | some r => [⟨na.object_id, na.candid, "check", "skip", "resolver_found_tns=" ++ r⟩]
    | none =>
      ⟨na.object_id, na.candid, "check", "ok", "resolver_no_match"⟩ ::
      (if dry_run || (match submit_url with | none => true | some u => u = "") then
        [⟨na.object_id, na.candid, "submit", "skip",
          if dry_run then "dry_run" else "tns_endpoint_unknown_probe_failed"⟩]
      else
        [⟨na.object_id, na.candid, "submit",
          if submit_result.1 then "ok" else "error", submit_result.2⟩])

/-! ## Registry client (tns/client.py) -/

/-- The ordered candidate URL suffixes for submission probing/rotation. -/
def DEFAULT_ENDPOINT_CANDIDATES : List String :=
  ["bulk-report", "bulk_report", "bulkreport", "bulk-report/upload",
   "bulk_report/upload", "bulk/at-report", "bulk/at_report", "bulk/at"]

/-- Outcome of one `self._session.post(url, ...)`: either a raised
transport exception, or an HTTP response with status code, lowercase-able
content-type header, the result of `r.json()` when it parses (the parsed
document abstracted as its serialized text), and `r.text`. -/
inductive PostOutcome where
  | exc (ename : String) (emsg : String)
  | resp (status : Int) (contentType : String) (jsonDoc : Option String) (text : String)
deriving DecidableEq

/-- The value `j` used for a response's detail in `submit_at_report`:
`r.json()` when it parses, else the fallback dict
`{"raw": r.text[:500], "status_code": ..., "url": ...}`. -/
inductive JVal where
  | parsed (doc : String)
  | rawFallback (text : String) (status : Int) (url : String)
deriving DecidableEq

def resp_jval (status : Int) (jsonDoc : Option String) (text url : String) : JVal :=
  match jsonDoc with
  | some d => .parsed d
  | none => .rawFallback (text.take 500) status url

/-- The `last_err` dict of `submit_at_report`: initially `{}`, then either
`{"error": "EXC <name>: <msg>", "url": ...}` after an exception, or
`{"url": ..., "status_code": ..., "response": j}` after a non-2xx,
non-400/422 status. -/
inductive ErrDict where
  | empty
  | excErr (ename emsg url : String)
  | httpErr (url : String) (status : Int) (response : JVal)
deriving DecidableEq

/-- The detail component of `submit_at_report`'s `(ok, detail)` result. -/
inductive SubmitDetail where
  | body (j : JVal)
  | payloadRejected (url : String) (status : Int) (response : JVal)
  | err (e : ErrDict)
  | disabled
deriving DecidableEq

/-- The `for url in urls` loop of `TNSClient.submit_at_report`
(client.py lines 184-210), over the world of HTTP outcomes. -/
def submit_at_report_loop (world : String → PostOutcome) :
    List String → ErrDict → Bool × SubmitDetail
  | [], last_err => (false, .err last_err)
  | url :: rest, last_err =>
    if url = "" then submit_at_report_loop world rest last_err
    else
      match world url with
      | .exc en em => submit_at_report_loop world rest (.excErr en em url)
      | .resp st _ct jd? text =>
        let j := resp_jval st jd? text url
        if 200 ≤ st ∧ st < 300 then (true, .body j)
        else if st = 400 ∨ st = 422 then (false, .payloadRejected url st j)
        else submit_at_report_loop world rest (.httpErr url st j)

/-- `TNSClient.submit_at_report(at_report_json, submit_url)`: disabled
client short-circuits; else `urls = [submit_url] if submit_url else
[api_url + "/" + ep for ep in DEFAULT_ENDPOINT_CANDIDATES]` (Python
truthiness: an empty-string pin also falls back to the candidate list). -/
def submit_at_report (enabled : Bool) (world : String → PostOutcome)
    (api_url : String) (submit_url : Option String) : Bool × SubmitDetail :=
  if !enabled then (false, .disabled)
  else
    let cands := DEFAULT_ENDPOINT_CANDIDATES.map (fun ep => api_url ++ "/" ++ ep)
    let urls := match submit_url with
      | some u => if u = "" then cands else [u]
      | none => cands
    submit_at_report_loop world urls .empty

/-- Python `str.lower()` (character-wise; the content types involved are
ASCII). -/
def str_lower (s : String) : String := ⟨s.data.map Char.toLower⟩

/-- Python substring membership `pat in s`. -/
def str_contains (s pat : String) : Bool :=
  s.data.tails.any (fun t => pat.data.isPrefixOf t)

/-- `TNSClient._try_post(url, data)` classification (client.py lines
134-158); returns `(probe-accepted, note)`.  The note for a parsed JSON
body abbreviates the Python key listing. -/
def try_post (o : PostOutcome) : Bool × String :=
  match o with
  | .exc en em => (false, "EXC " ++ en ++ ": " ++ em)
  | .resp st ct jd? _text =>
    let ctl := str_lower ct
    let short := "HTTP " ++ toString st
    if st = 404 then (false, short ++ " (404)")
    else if st = 405 then (false, short ++ " (405)")
    else if str_contains ctl "json" then
      match jd? with
      | some _ => (true, short ++ " JSON keys")
      | none => (true, short ++ " JSON (unparsed)")
    else if str_contains ctl "text/html" then (false, short ++ " HTML")
    else (true, short ++ " CT=" ++ (if ctl = "" then "unknown" else ctl))

/-- `TNSClient._probe_submit(notes)` (client.py lines 116-123): walk the
candidate suffixes in order, return the first URL whose probe is
accepted.  The human-readable `notes` accumulation is not modelled. -/
def probe_submit (world : String → PostOutcome) (api_url : String) :
    List String → Option String
  | [] => none
  | ep :: rest =>
    let url := api_url ++ "/" ++ ep
    if (try_post (world url)).1 then some url else probe_submit world api_url rest

/-! ## Stamp metrics (utils/fits_min.py) and the runner's uncaught call -/

/-- Input to `quick_stamp_metrics`, summarized to the level the decoder
inspects: either bytes that fail gzip decompression / header parsing, or
a decoded FITS primary HDU header with its pixel payload.  Pixel
statistics (median/MAD/peak/trough) are irrelevant to the claims about
error behaviour; the success value carries the `stamp_shape` pair. -/
inductive StampInput where
  | malformed (emsg : String)
  | fits (naxis : Int) (bitpix : Int) (nx ny : Int)
deriving DecidableEq

def supported_bitpix : List Int := [8, 16, 32, -32, -64]

/-- `quick_stamp_metrics` via `read_gz_fits_image`: raises (`Except.error`)
on malformed input, `NAXIS != 2`, or unsupported `BITPIX`; succeeds
otherwise. -/
def quick_stamp_metrics (s : StampInput) : Except String (Int × Int) :=
  match s with
  | .malformed emsg => .error emsg
  | .fits naxis bitpix nx ny =>
    if naxis ≠ 2 then .error ("Only 2D images supported, got NAXIS=" ++ toString naxis)
    else if !(supported_bitpix.contains bitpix) then
      .error ("Unsupported BITPIX=" ++ toString bitpix)
    else .ok (ny, nx)

/-- One `run_daemon` loop iteration from the stamp-metrics call on
(runner.py line 88 onward).  The call
`stamp_metrics = quick_stamp_metrics(alert)` stands outside any
`try`/`except` (unlike the `normalize` call right above it, lines 78-82),
so an exception raised there propagates out of the `while` loop and
terminates `run_daemon`: modelled as the whole iteration returning
`Except.error`. -/
def run_daemon_iteration (stamp : StampInput) (db : List TnsAction)
    (na : NormalizedAlert) (c : N1Config) (resolver : Option String)
    (dry_run : Bool) (submit_url : Option String) (submit_result : Bool × String) :
    Except String (List TnsAction) :=
  match quick_stamp_metrics stamp with
  | .error e => .error e
  | .ok _ => .ok (run_daemon_step db na c resolver dry_run submit_url submit_result)

/-- runner.py line 79 calls `normalize(topic, alert)` although
normalize.py declares `normalize(alert, topic)` (the call in
scripts/run_once_from_avro_dir.py line 37 uses the declared order): the
topic string is bound to the `alert` parameter, and normalize's first
statement `alert["candidate"]` subscripts a `str` with a string key,
raising `TypeError` on every polled alert (`topic` is a non-None string
whenever an alert is delivered, runner.py lines 73-75). -/
def normalize_call_line_79 (_topic : String) (_alert : RawAlert) :
    Except String NormalizedAlert :=
  .error "TypeError: string indices must be integers"

/-- One full body of run_daemon's `while True` poll loop (runner.py
lines 72-179) for a delivered alert, at the level of the `tns_actions`
writes: `.ok l` means the iteration completes (or `continue`s) having
appended the rows `l`; `.error e` means an uncaught exception
terminates `run_daemon`.  Line 79 (the swapped-argument `normalize`
call) raises on every alert; the exception is caught at lines 80-82 and
the alert is skipped with nothing appended.  Were normalization ever to
succeed, line 88 passes the raw alert dict to `quick_stamp_metrics`,
which expects gzipped bytes — malformed input, raising uncaught (lines
90 and 92-118 hold further uncaught call-signature errors, all before
any `tns_log`); `run_daemon_iteration` models that tail. -/
def run_daemon_loop_body (topic : String) (alert : RawAlert) (db : List TnsAction)
    (c : N1Config) (resolver : Option String) (dry_run : Bool)
    (submit_url : Option String) (sr : Bool × String) :
    Except String (List TnsAction) :=
  match normalize_call_line_79 topic alert with
  | .error _ => .ok []
  | .ok na =>
    run_daemon_iteration
      (.malformed "TypeError: a bytes-like object is required, not dict")
      db na c resolver dry_run submit_url sr

/-! ## Concrete values used by witnesses and counterexamples

The alert/config pair mirrors the end-to-end example of spec §8:
drb = 0.9 (min 0.8), isdiffpos "t", ssdistnr absent, distpsnr1 = −999,
srmag1 = −999, nmtchps = 2 (max 5), ndethist = 1 (max 3), a non-detection
0.5 days prior (max 3) with limiting mag 20, current mag 18
(delta 2, min 1.5). -/

def ex_prv1 : RawPrv := ⟨none, some (24590001 / 10), some 19⟩

def ex_prv2 : RawPrv := ⟨none, some (24590004 / 10), some 20⟩

def ex_raw : RawAlert :=
  { objectId := "ZTF21abc"
    candidate :=
      { candid := some 100
        jd := 24590006 / 10
        ra := 12
        dec := -5
        fid := some 1
        magpsf := some 18
        sigmapsf := some (1 / 10)
        diffmaglim := some (41 / 2)
        drb := some (9 / 10)
        rb := none
        isdiffpos := some "t"
        ssdistnr := none
        distpsnr1 := some (-999)
        sgscore1 := none
        srmag1 := some (-999)
        nmtchps := some 2
        ndethist := some 1 }
    prv_candidates := [ex_prv1, ex_prv2] }

def ex_cfg : N1Config :=
  { drb_min := 4 / 5
    rb_fallback_min := 13 / 20
    require_positive_diff := true
    min_ssdistnr_arcsec := 20
    min_distpsnr1_arcsec := 3
    min_ps1_mag := 15
    max_nmtchps := 5
    max_ndethist := 3
    max_days_since_nondet := 3
    min_delta_mag_from_nondet := 3 / 2 }

def ex_alert : NormalizedAlert := normalize ex_raw "fink_sso_ztf_candidates_ztf"

/-- Evaluation of the example alert through the normalizer, recorded as a
reusable equation (kernel reduction of `ℚ` arithmetic is unavailable, so
concrete runs are evaluated by `simp`/`norm_num`). -/
theorem ex_alert_eval : passes_n1 ex_alert ex_cfg = (true, "pass") := by
  norm_num [passes_n1, rb_gate_fail, drb_ok, rb_ok, isdiffpos_fail, sso_fail,
    ps1_close_fail, ps1_bright_fail, crowded_fail, ndethist_fail, no_nondet_fail,
    nondet_future_fail, nondet_old_fail, delta_mag_fail, ex_alert, normalize,
    ex_raw, ex_cfg, last_nondet, nondet_qualifies, max_by_jd, ex_prv1, ex_prv2,
    List.filter, List.foldl, Option.bind, Option.getD, Option.isSome, Option.isNone]


/-! ## Claim theorems -/

/-- Claim C2: for every normalized alert and config, `passes_n1` evaluates
the eleven gates in the fixed listed order with short-circuit: the
reported reason code is that of the first gate (in listed order) that
fails — `List.find?` walks the indices `0..10` in order and stops at the
first failing test — and if every gate is satisfied the result is
accepted = true with reason "pass". -/
theorem claim_c2 (a : NormalizedAlert) (c : N1Config) :
    passes_n1 a c =
      match (List.range 11).find? (n1_gate_fail a c) with
      | some i => (false, n1_reasons.getD i "pass")
      | none => (true, "pass") := by
  have hr : List.range 11 = [0, 1, 2, 3, 4, 5, 6, 7, 8, 9, 10] := rfl
  rw [hr]
  unfold passes_n1
  split_ifs with h0 h1 h2 h3 h4 h5 h6 h7 h8 h9 h10 <;>
    simp_all [List.find?, n1_gate_fail, n1_reasons]

lemma sentinel_no_sso (a : NormalizedAlert) (c : N1Config)
    (h : a.ssdistnr = some (-999)) : (passes_n1 a c).2 ≠ "sso_match" := by
  have hg : sso_fail a c = false := by simp [sso_fail, h]
  unfold passes_n1
  split_ifs <;> simp_all

lemma sentinel_no_close (a : NormalizedAlert) (c : N1Config)
    (h : a.distpsnr1 = some (-999)) : (passes_n1 a c).2 ≠ "ps1_too_close" := by
  have hg : ps1_close_fail a c = false := by simp [ps1_close_fail, h]
  unfold passes_n1
  split_ifs <;> simp_all

lemma sentinel_no_bright (a : NormalizedAlert) (c : N1Config)
    (h : a.srmag1 = some (-999)) : (passes_n1 a c).2 ≠ "ps1_too_bright" := by
  have hg : ps1_bright_fail a c = false := by simp [ps1_bright_fail, h]
  unfold passes_n1
  split_ifs <;> simp_all

/-- Claim C3: a sentinel −999 in `ssdistnr`, `distpsnr1` or `srmag1` is
treated as no-information by the veto gates 3–5: it never produces the
reason `sso_match`, `ps1_too_close` or `ps1_too_bright` respectively. -/
theorem claim_c3 (a : NormalizedAlert) (c : N1Config) :
    (a.ssdistnr = some (-999) → (passes_n1 a c).2 ≠ "sso_match")
    ∧ (a.distpsnr1 = some (-999) → (passes_n1 a c).2 ≠ "ps1_too_close")
    ∧ (a.srmag1 = some (-999) → (passes_n1 a c).2 ≠ "ps1_too_bright") :=
  ⟨sentinel_no_sso a c, sentinel_no_close a c, sentinel_no_bright a c⟩

def ex_alert_sentinel : NormalizedAlert := { ex_alert with ssdistnr := some (-999) }

/-- Witness for C3 at a concrete alert carrying −999 in all three fields. -/
theorem claim_c3_witness :
    (passes_n1 ex_alert_sentinel ex_cfg).2 ≠ "sso_match"
    ∧ (passes_n1 ex_alert_sentinel ex_cfg).2 ≠ "ps1_too_close"
    ∧ (passes_n1 ex_alert_sentinel ex_cfg).2 ≠ "ps1_too_bright" :=
  ⟨(claim_c3 ex_alert_sentinel ex_cfg).1 rfl,
   (claim_c3 ex_alert_sentinel ex_cfg).2.1 rfl,
   (claim_c3 ex_alert_sentinel ex_cfg).2.2 rfl⟩

lemma max_by_jd_mem (h : RawPrv) (t : List RawPrv) : max_by_jd h t ∈ h :: t := by
  induction t generalizing h with
  | nil => simp [max_by_jd]
  | cons p t ih =>
    rw [show max_by_jd h (p :: t)
          = max_by_jd (if h.jd.getD 0 < p.jd.getD 0 then p else h) t from rfl]
    rcases List.mem_cons.mp (ih (if h.jd.getD 0 < p.jd.getD 0 then p else h)) with h1 | h1
    · rw [h1]
      split <;> simp
    · simp [List.mem_cons, h1]

lemma max_by_jd_le (h : RawPrv) (t : List RawPrv) :
    ∀ q ∈ h :: t, q.jd.getD 0 ≤ (max_by_jd h t).jd.getD 0 := by
  induction t generalizing h with
  | nil =>
    intro q hq
    rcases List.mem_cons.mp hq with h1 | h1
    · rw [h1]; exact le_refl _
    · simp at h1
  | cons p t ih =>
    intro q hq
    rw [show max_by_jd h (p :: t)
          = max_by_jd (if h.jd.getD 0 < p.jd.getD 0 then p else h) t from rfl]
    have step_le : ∀ x ∈ (if h.jd.getD 0 < p.jd.getD 0 then p else h) :: t,
        x.jd.getD 0 ≤ (max_by_jd (if h.jd.getD 0 < p.jd.getD 0 then p else h) t).jd.getD 0 :=
      ih _
    have hstep : ∀ x, x = h ∨ x = p →
        x.jd.getD 0 ≤ (if h.jd.getD 0 < p.jd.getD 0 then p else h).jd.getD 0 := by
      intro x hx
      by_cases hc : h.jd.getD 0 < p.jd.getD 0
      · rw [if_pos hc]
        rcases hx with h1 | h1 <;> rw [h1]
        exact le_of_lt hc
      · rw [if_neg hc]
        rcases hx with h1 | h1 <;> rw [h1]
        exact le_of_not_lt hc
    rcases List.mem_cons.mp hq with h1 | h1
    · exact (hstep q (Or.inl h1)).trans (step_le _ (List.mem_cons_self _ _))
    · rcases List.mem_cons.mp h1 with h2 | h2
      · exact (hstep q (Or.inr h2)).trans (step_le _ (List.mem_cons_self _ _))
      · exact step_le q (List.mem_cons_of_mem _ h2)

/-- Claim C4: `_last_nondet` selects, among historical entries with no
observation identifier and a time strictly before the current `jd`, the
entry with the maximum time; when no entry qualifies it returns nothing
(so the `last_nondet` fields of the normalized alert are absent); and
`normalize` derives `last_nondet_jd` from exactly this selection. -/
theorem claim_c4 (prv : List RawPrv) (cur : ℚ) :
    (∀ r, last_nondet prv cur = some r →
        r ∈ prv ∧ r.candid = none ∧
        ∃ j, r.jd = some j ∧ j < cur ∧
          ∀ p, p ∈ prv → p.candid = none → ∀ jp, p.jd = some jp → jp < cur → jp ≤ j)
    ∧ (last_nondet prv cur = none →
        ∀ p, p ∈ prv → p.candid = none → ∀ jp, p.jd = some jp → ¬ jp < cur)
    ∧ (∀ (alert : RawAlert) (topic : String),
        (normalize alert topic).last_nondet_jd =
          (last_nondet alert.prv_candidates alert.candidate.jd).bind (fun r => r.jd)) := by
  refine ⟨?_, ?_, fun alert topic => rfl⟩
  · intro r hr
    unfold last_nondet at hr
    rcases hf : prv.filter (nondet_qualifies cur) with _ | ⟨hh, tt⟩
    · rw [hf] at hr; exact absurd hr (by simp)
    · rw [hf] at hr
      have hrm : r = max_by_jd hh tt := by
        have := hr
        simp only [Option.some.injEq] at this
        exact this.symm
      have hmem : r ∈ hh :: tt := hrm ▸ max_by_jd_mem hh tt
      have hmemf : r ∈ prv.filter (nondet_qualifies cur) := by rw [hf]; exact hmem
      have hq := List.mem_filter.mp hmemf
      have hqual := hq.2
      simp only [nondet_qualifies, Bool.and_eq_true, decide_eq_true_eq,
        Option.isNone_iff_eq_none, Option.isSome_iff_exists] at hqual
      obtain ⟨⟨hcand, j, hj⟩, hlt⟩ := hqual
      refine ⟨hq.1, hcand, j, hj, ?_, ?_⟩
      · have : r.jd.getD 0 = j := by rw [hj]; rfl
        rw [← this]; exact hlt
      · intro p hp hpc jp hpj hplt
        have hpq : nondet_qualifies cur p = true := by
          simp only [nondet_qualifies, Bool.and_eq_true, decide_eq_true_eq,
            Option.isNone_iff_eq_none, Option.isSome_iff_exists]
          exact ⟨⟨hpc, jp, hpj⟩, by rw [hpj] at *; exact hplt⟩
        have hpf : p ∈ prv.filter (nondet_qualifies cur) := List.mem_filter.mpr ⟨hp, hpq⟩
        rw [hf] at hpf
        have := max_by_jd_le hh tt p hpf
        rw [← hrm] at this
        have h1 : p.jd.getD 0 = jp := by rw [hpj]; rfl
        have h2 : r.jd.getD 0 = j := by rw [hj]; rfl
        rw [h1, h2] at this
        exact this
  · intro hn p hp hpc jp hpj hplt
    unfold last_nondet at hn
    rcases hf : prv.filter (nondet_qualifies cur) with _ | ⟨hh, tt⟩
    · have hpq : nondet_qualifies cur p = true := by
        simp only [nondet_qualifies, Bool.and_eq_true, decide_eq_true_eq,
          Option.isNone_iff_eq_none, Option.isSome_iff_exists]
        exact ⟨⟨hpc, jp, hpj⟩, by rw [hpj] at *; exact hplt⟩
      have hpf : p ∈ prv.filter (nondet_qualifies cur) := List.mem_filter.mpr ⟨hp, hpq⟩
      rw [hf] at hpf
      simp at hpf
    · rw [hf] at hn
      exact absurd hn (by simp)

/-- Witness for C4 at the spec's concrete instance: non-detections at jd
2459000.1 and 2459000.4, current jd 2459000.6 — the 2459000.4 entry is
selected, and the theorem's guarantees hold for it. -/
theorem claim_c4_witness :
    last_nondet [ex_prv1, ex_prv2] (24590006 / 10) = some ex_prv2
    ∧ (ex_prv2 ∈ [ex_prv1, ex_prv2] ∧ ex_prv2.candid = none ∧
       ∃ j, ex_prv2.jd = some j ∧ j < 24590006 / 10 ∧
         ∀ p, p ∈ [ex_prv1, ex_prv2] → p.candid = none →
           ∀ jp, p.jd = some jp → jp < 24590006 / 10 → jp ≤ j) := by
  have hsel : last_nondet [ex_prv1, ex_prv2] (24590006 / 10) = some ex_prv2 := by
    norm_num [last_nondet, nondet_qualifies, max_by_jd, ex_prv1, ex_prv2,
      List.filter, List.foldl]
  exact ⟨hsel, (claim_c4 [ex_prv1, ex_prv2] (24590006 / 10)).1 ex_prv2 hsel⟩

/-- Claim C5: for every `NormalizedAlert` produced by `normalize`,
`delta_mag_from_nondet` is present iff both `last_nondet_lim` and the
current magnitude are present, and then equals exactly
`last_nondet_lim - mag`. -/
theorem claim_c5 (alert : RawAlert) (topic : String) :
    ((normalize alert topic).delta_mag_from_nondet.isSome ↔
      ((normalize alert topic).last_nondet_lim.isSome
        ∧ (normalize alert topic).mag.isSome))
    ∧ (∀ l m, (normalize alert topic).last_nondet_lim = some l →
        (normalize alert topic).mag = some m →
        (normalize alert topic).delta_mag_from_nondet = some (l - m)) := by
  have hmag : (normalize alert topic).mag = alert.candidate.magpsf := rfl
  have hlim : (normalize alert topic).last_nondet_lim
      = (last_nondet alert.prv_candidates alert.candidate.jd).bind
          (fun r => r.diffmaglim) := rfl
  have hdelta : (normalize alert topic).delta_mag_from_nondet
      = match (last_nondet alert.prv_candidates alert.candidate.jd).bind
            (fun r => r.diffmaglim), alert.candidate.magpsf with
        | some l, some m => some (l - m)
        | _, _ => none := rfl
  rw [hmag, hlim, hdelta]
  cases hL : (last_nondet alert.prv_candidates alert.candidate.jd).bind
      (fun r => r.diffmaglim) with
  | none => cases hM : alert.candidate.magpsf <;> simp
  | some l => cases hM : alert.candidate.magpsf <;> simp_all

/-- Witness for C5: the example alert has limiting magnitude 20 at the
selected non-detection and current magnitude 18, so the derived jump is
their exact subtraction. -/
theorem claim_c5_witness :
    (normalize ex_raw "t").delta_mag_from_nondet = some (20 - 18) :=
  (claim_c5 ex_raw "t").2 20 18
    (by norm_num [normalize, last_nondet, nondet_qualifies, max_by_jd, ex_raw,
      ex_prv1, ex_prv2, List.filter, List.foldl, Option.bind])
    rfl

lemma was_submitted_iff (db : List TnsAction) (oid : String) :
    was_submitted_or_skipped db oid = true ↔
      ∃ r, r ∈ db ∧ r.object_id = oid ∧ r.action = "submit" := by
  simp [was_submitted_or_skipped, List.any_eq_true]

/-- Claim C1 names documented behaviour the shipped code cannot exhibit
(code bug): with a prior "submit" RegistryAction for "ZTF21abc" in the
durable store and a subsequent alert for the same object id that would
pass every filter gate, the loop iteration appends no RegistryAction at
all — in particular not the local check/skip record the claim asserts —
because the swapped-argument `normalize` call at runner.py line 79 skips
every alert before the duplicate check at line 124 can run.  (The
submission step is indeed never reached, but only because the whole
registry block is dead code.) -/
theorem claim_c1_bug :
    was_submitted_or_skipped [⟨"ZTF21abc", "99", "submit", "ok", "d"⟩]
      "ZTF21abc" = true
    ∧ (passes_n1 ex_alert ex_cfg).1 = true
    ∧ run_daemon_loop_body "fink_sso_ztf_candidates_ztf" ex_raw
        [⟨"ZTF21abc", "99", "submit", "ok", "d"⟩] ex_cfg none false
        (some "https://api/bulk-report") (true, "d2") = .ok [] :=
  ⟨rfl, by rw [ex_alert_eval], rfl⟩

/-- C10 as stated is refuted on the shipped code: the dry-run loop
iteration for a fully passing alert appends nothing — in particular no
("submit", "skip", "dry_run") row ever enters the store through a run,
since the alert is skipped at normalization — so the store never
acquires the premise row and the suppression mechanism is never
exercised by the program. -/
theorem claim_c10_counterexample :
    run_daemon_loop_body "fink_sso_ztf_candidates_ztf" ex_raw [] ex_cfg none true
        none (false, "") = .ok []
    ∧ was_submitted_or_skipped [] "ZTF21abc" = false :=
  ⟨rfl, rfl⟩

/-- Claim C10 amended: `DB.was_submitted_or_skipped` matches any row
with action "submit" regardless of its outcome — in particular a
"submit"/"skip" row already present in the store satisfies the query —
but no pipeline run ever records such a row or consults the query:
every loop iteration skips its alert at normalization and appends no
RegistryAction, so no run reaches the submission step. -/
theorem claim_c10_amended :
    (∀ (db : List TnsAction) (oid : String),
        was_submitted_or_skipped db oid = true ↔
          ∃ r, r ∈ db ∧ r.object_id = oid ∧ r.action = "submit")
    ∧ (∀ (oid candid detail : String),
        was_submitted_or_skipped [⟨oid, candid, "submit", "skip", detail⟩] oid
          = true)
    ∧ (∀ (topic : String) (alert : RawAlert) (db : List TnsAction) (c : N1Config)
          (resolver : Option String) (dry_run : Bool) (submit_url : Option String)
          (sr : Bool × String),
        run_daemon_loop_body topic alert db c resolver dry_run submit_url sr
          = .ok []) :=
  ⟨was_submitted_iff,
   fun oid candid detail => by simp [was_submitted_or_skipped],
   fun _ _ _ _ _ _ _ _ => rfl⟩

/-- C8 as stated is false on the shipped code: the example alert passes
every filter gate, yet its loop iteration (empty store, dry-run)
appends no RegistryAction whatsoever — the outcome of neither
duplicate-resolution layer is recorded as a "check" action — because
the alert is skipped at normalization (runner.py line 79, swapped
arguments) before either layer can run. -/
theorem claim_c8_counterexample :
    (passes_n1 ex_alert ex_cfg).1 = true
    ∧ run_daemon_loop_body "fink_sso_ztf_candidates_ztf" ex_raw [] ex_cfg none
        true none (false, "") = .ok [] :=
  ⟨by rw [ex_alert_eval], rfl⟩

/-- Claim C8 amended: for every alert — in particular every alert that
passes the filter — the pipeline run records no duplicate-resolution
outcome and makes no submission decision at all: the loop iteration
appends no RegistryAction, since `normalize` is called with its
arguments swapped at runner.py line 79 and every alert is skipped
before the duplicate-resolution block can run. -/
theorem claim_c8_amended (topic : String) (alert : RawAlert) (db : List TnsAction)
    (c : N1Config) (resolver : Option String) (dry_run : Bool)
    (submit_url : Option String) (sr : Bool × String) :
    run_daemon_loop_body topic alert db c resolver dry_run submit_url sr
      = .ok [] :=
  rfl

/-- Claim C6: the submission loop's response classification — 2xx at the
current URL succeeds with the parsed body as detail; 400/422 is terminal
for the attempt, yielding the rejection detail with no dependence on the
remaining candidates; any other status or a transport exception records
the last error and moves to the next candidate; an exhausted list fails
with the last recorded error; and a pinned (truthy) submit URL makes the
candidate list the singleton `[u]`, so no other URL is ever tried. -/
theorem claim_c6 :
    (∀ (w : String → PostOutcome) url rest le st ct jd? text,
        w url = .resp st ct jd? text → url ≠ "" → 200 ≤ st → st < 300 →
        submit_at_report_loop w (url :: rest) le =
          (true, .body (resp_jval st jd? text url)))
    ∧ (∀ (w : String → PostOutcome) url rest le st ct jd? text,
        w url = .resp st ct jd? text → url ≠ "" → (st = 400 ∨ st = 422) →
        submit_at_report_loop w (url :: rest) le =
          (false, .payloadRejected url st (resp_jval st jd? text url)))
    ∧ (∀ (w : String → PostOutcome) url rest le st ct jd? text,
        w url = .resp st ct jd? text → url ≠ "" →
        ¬(200 ≤ st ∧ st < 300) → ¬(st = 400 ∨ st = 422) →
        submit_at_report_loop w (url :: rest) le =
          submit_at_report_loop w rest (.httpErr url st (resp_jval st jd? text url)))
    ∧ (∀ (w : String → PostOutcome) url rest le en em,
        w url = .exc en em → url ≠ "" →
        submit_at_report_loop w (url :: rest) le =
          submit_at_report_loop w rest (.excErr en em url))
    ∧ (∀ (w : String → PostOutcome) le,
        submit_at_report_loop w [] le = (false, .err le))
    ∧ (∀ (w : String → PostOutcome) api_url u, u ≠ "" →
        submit_at_report true w api_url (some u) =
          submit_at_report_loop w [u] .empty) := by
  refine ⟨?_, ?_, ?_, ?_, fun w le => rfl, ?_⟩
  · intro w url rest le st ct jd? text hw hurl h1 h2
    show (if url = "" then _ else _) = _
    rw [if_neg hurl, hw]
    show (if 200 ≤ st ∧ st < 300 then _ else _) = _
    rw [if_pos ⟨h1, h2⟩]
  · intro w url rest le st ct jd? text hw hurl h3
    have hn : ¬(200 ≤ st ∧ st < 300) := by rcases h3 with rfl | rfl <;> omega
    show (if url = "" then _ else _) = _
    rw [if_neg hurl, hw]
    show (if 200 ≤ st ∧ st < 300 then _ else _) = _
    rw [if_neg hn]
    show (if st = 400 ∨ st = 422 then _ else _) = _
    rw [if_pos h3]
  · intro w url rest le st ct jd? text hw hurl h1 h2
    show (if url = "" then _ else _) = _
    rw [if_neg hurl, hw]
    show (if 200 ≤ st ∧ st < 300 then _ else _) = _
    rw [if_neg h1]
    show (if st = 400 ∨ st = 422 then _ else _) = _
    rw [if_neg h2]
  · intro w url rest le en em hw hurl
    show (if url = "" then _ else _) = _
    rw [if_neg hurl, hw]
  · intro w api_url u hu
    unfold submit_at_report
    simp only [Bool.not_true, Bool.false_eq_true, if_false]
    rw [if_neg hu]

/-- World for the C6 witness: "u1" answers HTTP 503 with a JSON body,
"u2" answers HTTP 422 with a JSON body, "u3" would succeed but must
never be consulted. -/
def ex_world : String → PostOutcome := fun u =>
  if u = "u1" then .resp 503 "application/json" (some "doc1") "t1"
  else if u = "u2" then .resp 422 "application/json" (some "doc2") "t2"
  else .resp 201 "application/json" (some "doc3") "t3"

/-- Witness for C6: the 503 rotates to the next candidate, the 422 is
terminal even though "u3" remains. -/
theorem claim_c6_witness :
    submit_at_report_loop ex_world ["u1", "u2", "u3"] .empty =
      (false, .payloadRejected "u2" 422 (.parsed "doc2")) := by
  have h3 := claim_c6.2.2.1 ex_world "u1" ["u2", "u3"] .empty 503
    "application/json" (some "doc1") "t1" rfl (by decide) (by omega) (by omega)
  have h2 := claim_c6.2.1 ex_world "u2" ["u3"]
    (.httpErr "u1" 503 (resp_jval 503 (some "doc1") "t1" "u1")) 422
    "application/json" (some "doc2") "t2" rfl (by decide) (Or.inr rfl)
  rw [h3, h2]
  rfl

/-- Claim C7: probe classification — a transport exception is rejected;
HTTP 404/405 is rejected; any other status with a JSON content type is
accepted (parsed or not); else a text/html content type is rejected; any
other outcome is accepted conservatively — and `probe_submit` returns
the first accepted candidate URL in list order. -/
theorem claim_c7 :
    (∀ en em, (try_post (.exc en em)).1 = false)
    ∧ (∀ st ct jd? text, st = 404 ∨ st = 405 →
        (try_post (.resp st ct jd? text)).1 = false)
    ∧ (∀ st ct jd? text, st ≠ 404 → st ≠ 405 →
        str_contains (str_lower ct) "json" = true →
        (try_post (.resp st ct jd? text)).1 = true)
    ∧ (∀ st ct jd? text, st ≠ 404 → st ≠ 405 →
        str_contains (str_lower ct) "json" = false →
        str_contains (str_lower ct) "text/html" = true →
        (try_post (.resp st ct jd? text)).1 = false)
    ∧ (∀ st ct jd? text, st ≠ 404 → st ≠ 405 →
        str_contains (str_lower ct) "json" = false →
        str_contains (str_lower ct) "text/html" = false →
        (try_post (.resp st ct jd? text)).1 = true)
    ∧ (∀ (w : String → PostOutcome) api_url eps,
        probe_submit w api_url eps =
          (eps.map (fun ep => api_url ++ "/" ++ ep)).find?
            (fun url => (try_post (w url)).1)) := by
  refine ⟨fun en em => rfl, ?_, ?_, ?_, ?_, ?_⟩
  · intro st ct jd? text h
    simp only [try_post]
    rcases h with rfl | rfl
    · rw [if_pos rfl]
    · rw [if_neg (by decide), if_pos rfl]
  · intro st ct jd? text h4 h5 hj
    simp only [try_post]
    rw [if_neg h4, if_neg h5]
    simp only [hj, if_true]
    cases jd? <;> rfl
  · intro st ct jd? text h4 h5 hj hh
    simp only [try_post]
    rw [if_neg h4, if_neg h5]
    simp only [hj, hh, Bool.false_eq_true, if_false, if_true]
  · intro st ct jd? text h4 h5 hj hh
    simp only [try_post]
    rw [if_neg h4, if_neg h5]
    simp only [hj, hh, Bool.false_eq_true, if_false]
  · intro w api_url eps
    induction eps with
    | nil => rfl
    | cons e t ih =>
      simp only [probe_submit, List.map_cons, List.find?]
      cases hp : (try_post (w (api_url ++ "/" ++ e))).1 with
      | false => simp [hp, ih]
      | true => simp [hp]

/-- World for the C7 witness: candidate "c1" answers HTTP 404, candidate
"c2" answers HTTP 400 with a JSON body. -/
def ex_probe_world : String → PostOutcome := fun u =>
  if u = "api/c1" then .resp 404 "application/json" (some "e404") "t"
  else .resp 400 "application/json" (some "e400") "t"

/-- Witness for C7: probing 404-then-400-with-JSON selects the second
candidate as the submit endpoint. -/
theorem claim_c7_witness :
    probe_submit ex_probe_world "api" ["c1", "c2"] = some "api/c2" := by
  rw [claim_c7.2.2.2.2.2 ex_probe_world "api" ["c1", "c2"]]
  decide

/-- Claim C9 names documented behaviour the code does not implement
(code bug): `quick_stamp_metrics` raises on a malformed stamp — here a
FITS header with NAXIS = 3 — and `run_daemon` (runner.py line 88) calls
it outside any `try`/`except`, so the whole loop iteration errors out
and the daemon terminates instead of treating the metrics as absent and
continuing with the alert. -/
theorem claim_c9_bug :
    quick_stamp_metrics (.fits 3 16 10 10) =
      .error ("Only 2D images supported, got NAXIS=" ++ toString (3 : Int))
    ∧ run_daemon_iteration (.fits 3 16 10 10) [] ex_alert ex_cfg none true none
        (false, "") =
      .error ("Only 2D images supported, got NAXIS=" ++ toString (3 : Int)) :=
  ⟨rfl, rfl⟩

end FirstLight
